import Mathlib

/-!
# Verification of the rainfall-station consolidator and NDVI lag-correlation tool

A shallow embedding of the two analysis scripts of this repository
(`station1.py`: CSV validation and loading, monthly/annual summarisation with
QA flags, wide pivot, write-safe save; `landsat.py`: lagged correlations of a
merged NDVI/rainfall yearly series), together with theorems settling the
testable properties stated in the specification.

Numeric cells are modelled as rationals; a possibly-missing rainfall cell is an
`Option ℚ` (pandas `NaN` becomes `none`).  Date/number parsing and the
statistics routines (scipy) are external libraries; they enter the model as
function parameters.  Rounding to 3 decimals models numpy's round-half-to-even.
-/

namespace Station

/-- A calendar date, as produced by `pd.to_datetime` coercion. -/
structure Date where
  year : ℕ
  month : ℕ
  day : ℕ
deriving DecidableEq

/-- The seven station-metadata columns (`META_COLS`) that identify a station. -/
structure StationMeta where
  number : ℕ
  name : String
  height : ℚ
  easting : ℚ
  northing : ℚ
  latitude : ℚ
  longitude : ℚ
deriving DecidableEq

/-- One validated daily record: station metadata, a parsed date, and a
rainfall amount that may be missing (`NaN` in the source). -/
structure DailyRecord where
  meta : StationMeta
  date : Date
  rain : Option ℚ
deriving DecidableEq

/-- One raw CSV row before type coercion: the `date` and `rain` cells are
still strings; metadata cells are carried through untouched. -/
structure RawRow where
  meta : StationMeta
  dateStr : String
  rainStr : String
deriving DecidableEq

/-- A CSV file on disk: its name, its header (column names), its rows. -/
structure CsvFile where
  name : String
  cols : List String
  rows : List RawRow
deriving DecidableEq

/-- `REQUIRED_COLS` from `station1.py`. -/
def REQUIRED_COLS : List String :=
  ["Station Number", "Station Name", "Height", "Easting",
   "Northing", "Latitude", "Longitude", "date", "rain"]

/-- Error raised by `read_and_validate_csv`: the required columns absent
from the file (`ValueError(f"Missing columns: {missing}")`). -/
inductive CsvError where
  | missingColumns (missing : List String)
deriving DecidableEq

/-- Errors raised by `load_folder`: `FileNotFoundError` when the folder has no
CSV files, `RuntimeError` when no file survives validation. -/
inductive LoadError where
  | noCsvFiles
  | noValidCsv
deriving DecidableEq

/-- `read_and_validate_csv` (station1.py lines 39-54): reject the file if any
required column is absent; otherwise coerce the `date` column (rows whose date
fails to parse are dropped) and the `rain` column (a rain value that fails to
parse stays as a missing marker).  `parseDate` and `parseRain` stand for the
external pandas coercions `to_datetime(..., errors="coerce")` and
`to_numeric(..., errors="coerce")`. -/
def read_and_validate_csv (parseDate : String → Option Date)
    (parseRain : String → Option ℚ) (file : CsvFile) :
    Except CsvError (List DailyRecord) :=
  let missing := REQUIRED_COLS.filter (fun c => ¬ c ∈ file.cols)
  if missing ≠ [] then
    .error (.missingColumns missing)
  else
    .ok (file.rows.filterMap (fun r =>
      (parseDate r.dateStr).map (fun d =>
        { meta := r.meta, date := d, rain := parseRain r.rainStr })))

/-- `load_folder` (station1.py lines 56-72): fail when the folder holds no CSV
files; validate each file, skipping (and recording) the ones that error;
fail when no file validates; otherwise concatenate the surviving frames.
The second component of the result lists the skipped files with the reported
reason. -/
def load_folder (parseDate : String → Option Date) (parseRain : String → Option ℚ)
    (files : List CsvFile) :
    Except LoadError (List DailyRecord × List (String × CsvError)) :=
  if files = [] then
    .error .noCsvFiles
  else
    let results := files.map (fun f => (f.name, read_and_validate_csv parseDate parseRain f))
    let frames := results.filterMap (fun p => p.2.toOption)
    let skipped := results.filterMap (fun p =>
      match p.2 with
      | .error e => some (p.1, e)
      | .ok _ => none)
    if frames = [] then
      .error .noValidCsv
    else
      .ok (frames.flatten, skipped)

/-- Round-half-to-even to an integer (the rounding used by numpy/pandas
`.round`). -/
def roundHalfEven (q : ℚ) : ℤ :=
  let f := ⌊q⌋
  let r := q - f
  if r < 1/2 then f
  else if 1/2 < r then f + 1
  else if f % 2 = 0 then f else f + 1

/-- `.round(3)`: round to 3 decimal places, half to even. -/
def round3 (q : ℚ) : ℚ := (roundHalfEven (1000 * q) : ℚ) / 1000

/-- The period key `df["date"].dt.to_period("M")`: the (year, month) pair. -/
def toYearMonth (d : Date) : ℕ × ℕ := (d.year, d.month)

/-- `df["YearMonth"] = df["date"].dt.to_period("M")` (station1.py line 80):
the column added, in place, to the caller's dataframe by `summarize_monthly`.
Each input row is kept and gains the period of its date. -/
def addYearMonth (df : List DailyRecord) : List (DailyRecord × (ℕ × ℕ)) :=
  df.map (fun r => (r, toYearMonth r.date))

/-- `df["Year"] = ...dt.year; df["Month"] = ...dt.month` (station1.py lines
129-130): the two columns added, in place, to the caller's dataframe by
`summarize_annual`. -/
def addYearAndMonth (df : List DailyRecord) : List (DailyRecord × ℕ × ℕ) :=
  df.map (fun r => (r, r.date.year, r.date.month))

/-- One row of the monthly summary produced by `summarize_monthly`. -/
structure MonthlyRow where
  meta : StationMeta
  year : ℕ
  month : ℕ
  monthlyRainfall : ℚ
  daysCount : ℕ
  missingCount : ℕ
  pctMissing : ℚ
  incompleteMonth : Bool
deriving DecidableEq

/-- The grouping key of `summarize_monthly`: `META_COLS + ["YearMonth"]`. -/
def monthKeyOf (p : DailyRecord × (ℕ × ℕ)) : StationMeta × ℕ × ℕ :=
  (p.1.meta, p.2)

/-- Readability sort order of the monthly table:
`sort_values(["Station Number", "YearMonth"])`. -/
def monthlyLe (a b : MonthlyRow) : Prop :=
  a.meta.number < b.meta.number ∨
    (a.meta.number = b.meta.number ∧
      (a.year < b.year ∨ (a.year = b.year ∧ a.month ≤ b.month)))

instance : DecidableRel monthlyLe := fun a b => by
  unfold monthlyLe; infer_instance

instance : IsTotal MonthlyRow monthlyLe :=
  ⟨fun a b => by unfold monthlyLe; omega⟩

instance : IsTrans MonthlyRow monthlyLe :=
  ⟨fun a b c hab hbc => by unfold monthlyLe at *; omega⟩

/-- The aggregated row of one `groupby` group of `summarize_monthly`
(station1.py lines 85-92): rainfall sum (pandas `sum` skips missing values,
i.e. treats them as zero), row count, missing-row count, rounded missing
fraction, and the incompleteness flag. -/
def monthlyRowFor (df : List DailyRecord) (missing_threshold : ℚ)
    (k : StationMeta × ℕ × ℕ) : MonthlyRow :=
  let g := (addYearMonth df).filter (fun p => monthKeyOf p = k)
  let days := g.length
  let missing := (g.filter (fun p => p.1.rain = none)).length
  let pct := round3 ((missing : ℚ) / (days : ℚ))
  { meta := k.1, year := k.2.1, month := k.2.2,
    monthlyRainfall := (g.map (fun p => p.1.rain.getD 0)).sum,
    daysCount := days, missingCount := missing,
    pctMissing := pct,
    incompleteMonth := decide (missing_threshold < pct) }

/-- `summarize_monthly` (station1.py lines 74-103): attach the `YearMonth`
period, group by station metadata plus period, aggregate each group, and sort
by station number then period. -/
def summarize_monthly (df : List DailyRecord) (missing_threshold : ℚ) :
    List MonthlyRow :=
  let keys := ((addYearMonth df).map monthKeyOf).dedup
  (keys.map (monthlyRowFor df missing_threshold)).insertionSort monthlyLe

/-- One row of the annual summary produced by `summarize_annual`. -/
structure AnnualRow where
  meta : StationMeta
  year : ℕ
  annualRainfall : ℚ
  daysCount : ℕ
  missingCount : ℕ
  pctMissing : ℚ
  monthsObserved : ℕ
  missingMonths : ℤ
  incompleteYear : Bool
  insufficientMonths : Bool
  flagged : Bool
deriving DecidableEq

/-- The grouping key of `summarize_annual`: `META_COLS + ["Year"]`. -/
def yearKeyOf (p : DailyRecord × ℕ × ℕ) : StationMeta × ℕ :=
  (p.1.meta, p.2.1)

/-- Sort order of the annual table: `sort_values(["Station Number", "Year"])`. -/
def annualLe (a b : AnnualRow) : Prop :=
  a.meta.number < b.meta.number ∨
    (a.meta.number = b.meta.number ∧ a.year ≤ b.year)

instance : DecidableRel annualLe := fun a b => by
  unfold annualLe; infer_instance

instance : IsTotal AnnualRow annualLe :=
  ⟨fun a b => by unfold annualLe; omega⟩

instance : IsTrans AnnualRow annualLe :=
  ⟨fun a b c hab hbc => by unfold annualLe at *; omega⟩

/-- `_nmonths` (station1.py lines 134-136): the number of distinct
(year, month) pairs among the dates of a group. -/
def nmonths (g : List (DailyRecord × ℕ × ℕ)) : ℕ :=
  ((g.map (fun p => (p.1.date.year, p.1.date.month))).dedup).length

/-- The aggregated row of one `groupby` group of `summarize_annual`
(station1.py lines 138-151): rainfall sum, row count, missing count, distinct
months observed, the rounded missing fraction, the missing-month count, and
the three QA flags. -/
def annualRowFor (df : List DailyRecord) (missing_threshold : ℚ)
    (min_months : ℕ) (k : StationMeta × ℕ) : AnnualRow :=
  let g := (addYearAndMonth df).filter (fun p => yearKeyOf p = k)
  let days := g.length
  let missing := (g.filter (fun p => p.1.rain = none)).length
  let months := nmonths g
  let pct := round3 ((missing : ℚ) / (days : ℚ))
  let incomplete := decide (missing_threshold < pct)
  let insufficient := decide (months < min_months)
  { meta := k.1, year := k.2,
    annualRainfall := (g.map (fun p => p.1.rain.getD 0)).sum,
    daysCount := days, missingCount := missing,
    pctMissing := pct, monthsObserved := months,
    missingMonths := (12 : ℤ) - (months : ℤ),
    incompleteYear := incomplete,
    insufficientMonths := insufficient,
    flagged := incomplete || insufficient }

/-- `summarize_annual` (station1.py lines 122-160): attach `Year` and `Month`,
group by station metadata plus year, aggregate each group, and sort by
station then year. -/
def summarize_annual (df : List DailyRecord) (missing_threshold : ℚ)
    (min_months : ℕ) : List AnnualRow :=
  let keys := ((addYearAndMonth df).map yearKeyOf).dedup
  (keys.map (annualRowFor df missing_threshold min_months)).insertionSort annualLe

/-- One cell of the wide pivot produced by `pivot_wide` (station1.py lines
105-120): for a station (full metadata index) and a period column, the sum of
the `MonthlyRainfall` values of the matching long rows (`aggfunc="sum"`), or
an empty cell (`NaN`) when the station has no row for that period. -/
def pivotCell (monthly : List MonthlyRow) (m : StationMeta) (ym : ℕ × ℕ) :
    Option ℚ :=
  let xs := monthly.filter (fun r => r.meta = m ∧ (r.year, r.month) = ym)
  if xs.isEmpty then none
  else some ((xs.map (fun r => r.monthlyRainfall)).sum)

/-- The period columns of the wide pivot: every `YearMonth` value occurring in
the long table. -/
def widePeriods (monthly : List MonthlyRow) : List (ℕ × ℕ) :=
  (monthly.map (fun r => (r.year, r.month))).dedup

/-- A station's wide-pivot row, metadata columns excluded: one cell per
period column. -/
def wideRow (monthly : List MonthlyRow) (m : StationMeta) : List (Option ℚ) :=
  (widePeriods monthly).map (pivotCell monthly m)

/-- The sum of a station's wide-row cells (empty cells contribute nothing). -/
def wideRowSum (monthly : List MonthlyRow) (m : StationMeta) : ℚ :=
  ((wideRow monthly m).map (fun c => c.getD 0)).sum

/-- The index of the last occurrence of `c` in `l`, if any. -/
def lastIndexOf (c : Char) (l : List Char) : Option ℕ :=
  l.enum.foldl (fun acc q => if q.2 = c then some q.1 else acc) none

/-- The root part of `os.path.splitext`: everything before the final extension.
Following CPython's `posixpath.splitext`, the extension starts at the last dot
that lies after the last path separator and after at least one non-dot
character of the basename (so leading dots of the basename never start an
extension). -/
def splitextRoot (p : String) : String :=
  let cs := p.toList
  let s : ℤ := match lastIndexOf '/' cs with
    | none => -1
    | some i => (i : ℤ)
  match lastIndexOf '.' cs with
  | none => p
  | some d =>
    let hasNonDot := cs.enum.any (fun q =>
      decide (s < (q.1 : ℤ)) && decide ((q.1 : ℤ) < (d : ℤ)) && decide (q.2 ≠ '.'))
    if s < (d : ℤ) ∧ hasNonDot = true then String.mk (cs.take d) else p

/-- The fallback filename used by `safe_save_csv`:
`f"{os.path.splitext(output_file)[0]}_{timestamp}.csv"`. -/
def fallbackName (output_file timestamp : String) : String :=
  splitextRoot output_file ++ "_" ++ timestamp ++ ".csv"

/-- `safe_save_csv` (station1.py lines 23-37).  `locked` tells whether writing
a path raises `PermissionError`; `timestamp` is `time.strftime` at call time;
`df` is the table written (polymorphic: its contents are irrelevant here).
The result is the path actually used together with the data written to it.
The first write is guarded by `try/except PermissionError`; the fallback write
is not, so a locked fallback path propagates the error (`.error ()`). -/
def safe_save_csv {α : Type} (locked : String → Bool) (timestamp : String)
    (df : α) (output_file : String) : Except Unit (String × α) :=
  if locked output_file = false then
    .ok (output_file, df)
  else
    let fallback_file := fallbackName output_file timestamp
    if locked fallback_file = false then
      .ok (fallback_file, df)
    else
      .error ()

end Station

namespace Landsat

/-- One row of the merged NDVI/rainfall yearly series built by
`prepare_merged`: an inner join on year of the deduplicated seasonal NDVI
series and the deduplicated annual rainfall series, sorted by year. -/
structure MergedRow where
  year : ℤ
  ndvi : ℚ
  rain : ℚ
deriving DecidableEq

/-- The paired rows surviving `tmp["rain_lag"] = tmp["rain"].shift(lag * -1)`
followed by `dropna` (landsat.py lines 169-170).  `shift(-lag)` aligns the
rain value of the row `lag` positions later with each row, so for `lag ≥ 0`
row `i` pairs with row `i + lag`, and for `lag < 0` row `i` pairs with row
`i - |lag|`; rows without a partner are dropped.  Each pair is
(row carrying the NDVI value, row carrying the rain value). -/
def lagPairs (lag : ℤ) (base : List MergedRow) : List (MergedRow × MergedRow) :=
  if 0 ≤ lag then base.zip (base.drop lag.toNat)
  else (base.drop (-lag).toNat).zip base

/-- One result row of `lagged_correlations`: season, lag, sample size, and the
statistics block (the three coefficient/p-value pairs from `corr_with_p`,
abstracted as `σ`). -/
structure LagRow (σ : Type) where
  season : String
  lag_years : ℤ
  n : ℕ
  stats : σ
deriving DecidableEq

/-- The final `sort_values(["season", "lag_years"])` order. -/
def lagRowLe {σ : Type} (a b : LagRow σ) : Prop :=
  a.season < b.season ∨ (a.season = b.season ∧ a.lag_years ≤ b.lag_years)

instance {σ : Type} : DecidableRel (lagRowLe (σ := σ)) := fun a b => by
  unfold lagRowLe; infer_instance

instance {σ : Type} : IsTotal (LagRow σ) lagRowLe :=
  ⟨fun a b => by
    unfold lagRowLe
    rcases lt_trichotomy a.season b.season with h | h | h
    · exact Or.inl (Or.inl h)
    · rcases le_total a.lag_years b.lag_years with hl | hl
      · exact Or.inl (Or.inr ⟨h, hl⟩)
      · exact Or.inr (Or.inr ⟨h.symm, hl⟩)
    · exact Or.inr (Or.inl h)⟩

instance {σ : Type} : IsTrans (LagRow σ) lagRowLe :=
  ⟨fun a b c hab hbc => by
    unfold lagRowLe at *
    rcases hab with h1 | ⟨e1, h1⟩ <;> rcases hbc with h2 | ⟨e2, h2⟩
    · exact Or.inl (lt_trans h1 h2)
    · exact Or.inl (e2 ▸ h1)
    · exact Or.inl (e1 ▸ h2)
    · exact Or.inr ⟨e1.trans e2, le_trans h1 h2⟩⟩

/-- `lagged_correlations` (landsat.py lines 160-180): for each lag, build the
lag-shifted pairing, drop incomplete pairs, skip the lag when fewer than 3
pairs remain, otherwise record one row with the sample size and the statistics
computed by `stat` (the external `corr_with_p`) on the
(NDVI value, lagged rain value) pairs; finally sort by season and lag. -/
def lagged_correlations {σ : Type} (stat : List (ℚ × ℚ) → σ) (season : String)
    (lags : List ℤ) (base : List MergedRow) : List (LagRow σ) :=
  (lags.filterMap (fun lag =>
    let pairs := (lagPairs lag base).map (fun p => (p.1.ndvi, p.2.rain))
    if pairs.length < 3 then none
    else some { season := season, lag_years := lag, n := pairs.length,
                stats := stat pairs })).insertionSort lagRowLe

/-- The result row `lagged_correlations` emits for one lag: the sample size is
the number of surviving pairs and the statistics block is `corr_with_p` on the
(NDVI value, lagged rain value) pairs. -/
def mkLagRow {σ : Type} (stat : List (ℚ × ℚ) → σ) (season : String)
    (base : List MergedRow) (lag : ℤ) : LagRow σ :=
  { season := season, lag_years := lag, n := (lagPairs lag base).length,
    stats := stat ((lagPairs lag base).map (fun p => (p.1.ndvi, p.2.rain))) }

/-- A concrete merged series used by the witness theorems: four consecutive
years with strictly increasing NDVI and rainfall. -/
def wBase : List MergedRow :=
  [⟨2000, 1, 10⟩, ⟨2001, 2, 20⟩, ⟨2002, 3, 30⟩, ⟨2003, 4, 40⟩]

end Landsat

namespace Station

/-- The validated daily records of station `m` whose date falls in month
`(y, mo)`: the group a monthly summary row aggregates. -/
def monthGroup (df : List DailyRecord) (m : StationMeta) (y mo : ℕ) :
    List DailyRecord :=
  df.filter (fun x => x.meta = m ∧ x.date.year = y ∧ x.date.month = mo)

/-- The validated daily records of station `m` whose date falls in year `y`:
the group an annual summary row aggregates. -/
def yearGroup (df : List DailyRecord) (m : StationMeta) (y : ℕ) :
    List DailyRecord :=
  df.filter (fun x => x.meta = m ∧ x.date.year = y)

/-- Concrete fixtures used by the witness theorems. -/
def wMeta : StationMeta := ⟨1, "Clara", 58, 0, 0, 53, -7⟩

def wRec1 : DailyRecord := ⟨wMeta, ⟨2020, 1, 1⟩, some 5⟩

def wRec2 : DailyRecord := ⟨wMeta, ⟨2020, 1, 2⟩, none⟩

def wRec3 : DailyRecord := ⟨wMeta, ⟨2020, 2, 1⟩, some 3⟩

def wDf : List DailyRecord := [wRec1, wRec2, wRec3]

/-- The coercion `read_and_validate_csv` applies to one raw row: parse the
date (dropping the row when it fails) and attach the parsed rain value. -/
def coerceRow (parseDate : String → Option Date)
    (parseRain : String → Option ℚ) (r : RawRow) : Option DailyRecord :=
  (parseDate r.dateStr).map (fun d =>
    { meta := r.meta, date := d, rain := parseRain r.rainStr })

/-- A concrete date parser for witnesses: accepts only `2020-01-01`. -/
def wParseDate : String → Option Date :=
  fun s => if s = "2020-01-01" then some ⟨2020, 1, 1⟩ else none

/-- A concrete rain parser for witnesses: accepts only `5`. -/
def wParseRain : String → Option ℚ :=
  fun s => if s = "5" then some 5 else none

/-- A witness CSV file carrying all required columns. -/
def wGoodFile : CsvFile :=
  ⟨"good.csv", REQUIRED_COLS, [⟨wMeta, "2020-01-01", "5"⟩]⟩

/-- A witness CSV file missing most required columns. -/
def wBadFile : CsvFile :=
  ⟨"bad.csv", ["date", "rain"], [⟨wMeta, "2020-01-01", "5"⟩]⟩

/-- A witness CSV file whose second row has an unparseable date and whose
third row has an unparseable rain value. -/
def wMixedFile : CsvFile :=
  ⟨"mixed.csv", REQUIRED_COLS,
    [⟨wMeta, "2020-01-01", "5"⟩, ⟨wMeta, "bad-date", "5"⟩,
     ⟨wMeta, "2020-01-01", "no-number"⟩]⟩

lemma sum_getD_eq_sum_filterMap (l : List (Option ℚ)) :
    (l.map (fun o => o.getD 0)).sum = (l.filterMap id).sum := by
  induction l with
  | nil => rfl
  | cons a t ih => cases a <;> simp [ih]

lemma mem_summarize_monthly {df : List DailyRecord} {thr : ℚ} {r : MonthlyRow} :
    r ∈ summarize_monthly df thr ↔
      ∃ k ∈ ((addYearMonth df).map monthKeyOf).dedup,
        r = monthlyRowFor df thr k := by
  unfold summarize_monthly
  simp only [List.mem_insertionSort, List.mem_map]
  constructor
  · rintro ⟨k, hk, rfl⟩; exact ⟨k, hk, rfl⟩
  · rintro ⟨k, hk, rfl⟩; exact ⟨k, hk, rfl⟩

lemma mem_summarize_annual {df : List DailyRecord} {thr : ℚ} {mm : ℕ}
    {r : AnnualRow} :
    r ∈ summarize_annual df thr mm ↔
      ∃ k ∈ ((addYearAndMonth df).map yearKeyOf).dedup,
        r = annualRowFor df thr mm k := by
  unfold summarize_annual
  simp only [List.mem_insertionSort, List.mem_map]
  constructor
  · rintro ⟨k, hk, rfl⟩; exact ⟨k, hk, rfl⟩
  · rintro ⟨k, hk, rfl⟩; exact ⟨k, hk, rfl⟩

lemma monthly_group_eq (df : List DailyRecord) (m : StationMeta) (y mo : ℕ) :
    (addYearMonth df).filter (fun p => monthKeyOf p = (m, y, mo)) =
      (monthGroup df m y mo).map (fun r => (r, toYearMonth r.date)) := by
  unfold addYearMonth monthGroup
  rw [List.filter_map]
  congr 1
  apply List.filter_congr
  intro x _
  simp [monthKeyOf, toYearMonth, Prod.ext_iff, Function.comp, and_assoc]

lemma annual_group_eq (df : List DailyRecord) (m : StationMeta) (y : ℕ) :
    (addYearAndMonth df).filter (fun p => yearKeyOf p = (m, y)) =
      (yearGroup df m y).map (fun r => (r, r.date.year, r.date.month)) := by
  unfold addYearAndMonth yearGroup
  rw [List.filter_map]
  congr 1
  apply List.filter_congr
  intro x _
  simp [yearKeyOf, Prod.ext_iff, Function.comp]

lemma monthlyRowFor_incompleteMonth (df : List DailyRecord) (thr : ℚ)
    (k : StationMeta × ℕ × ℕ) :
    (monthlyRowFor df thr k).incompleteMonth =
      decide (thr < (monthlyRowFor df thr k).pctMissing) := rfl

lemma annualRowFor_incompleteYear (df : List DailyRecord) (thr : ℚ) (mm : ℕ)
    (k : StationMeta × ℕ) :
    (annualRowFor df thr mm k).incompleteYear =
      decide (thr < (annualRowFor df thr mm k).pctMissing) := rfl

lemma annualRowFor_insufficientMonths (df : List DailyRecord) (thr : ℚ)
    (mm : ℕ) (k : StationMeta × ℕ) :
    (annualRowFor df thr mm k).insufficientMonths =
      decide ((annualRowFor df thr mm k).monthsObserved < mm) := rfl

lemma annualRowFor_flagged (df : List DailyRecord) (thr : ℚ) (mm : ℕ)
    (k : StationMeta × ℕ) :
    (annualRowFor df thr mm k).flagged =
      ((annualRowFor df thr mm k).incompleteYear ||
        (annualRowFor df thr mm k).insufficientMonths) := rfl

lemma monthlyRowFor_fields (df : List DailyRecord) (thr : ℚ)
    (k : StationMeta × ℕ × ℕ) :
    (monthlyRowFor df thr k).meta = k.1 ∧
    (monthlyRowFor df thr k).year = k.2.1 ∧
    (monthlyRowFor df thr k).month = k.2.2 ∧
    (monthlyRowFor df thr k).pctMissing =
      round3 (((monthlyRowFor df thr k).missingCount : ℚ) /
        ((monthlyRowFor df thr k).daysCount : ℚ)) :=
  ⟨rfl, rfl, rfl, rfl⟩

end Station




namespace Station

/-- C1: in both the monthly and the annual summary, the incompleteness flag is
true iff the missing fraction — as stored, i.e. rounded to 3 decimals —
strictly exceeds the caller-supplied threshold; a group whose rounded missing
fraction equals the threshold exactly is not flagged. -/
theorem incomplete_flag_iff_rounded_fraction_exceeds
    (df : List DailyRecord) (thr : ℚ) (mm : ℕ) :
    (∀ r ∈ summarize_monthly df thr,
      (r.incompleteMonth = true ↔ thr < r.pctMissing) ∧
      (r.pctMissing = thr → r.incompleteMonth = false)) ∧
    (∀ r ∈ summarize_annual df thr mm,
      (r.incompleteYear = true ↔ thr < r.pctMissing) ∧
      (r.pctMissing = thr → r.incompleteYear = false)) := by
  constructor
  · intro r hr
    obtain ⟨k, _, rfl⟩ := mem_summarize_monthly.mp hr
    refine ⟨?_, ?_⟩
    · rw [monthlyRowFor_incompleteMonth]
      exact decide_eq_true_iff
    · intro h
      rw [monthlyRowFor_incompleteMonth, h]
      simp
  · intro r hr
    obtain ⟨k, _, rfl⟩ := mem_summarize_annual.mp hr
    refine ⟨?_, ?_⟩
    · rw [annualRowFor_incompleteYear]
      exact decide_eq_true_iff
    · intro h
      rw [annualRowFor_incompleteYear, h]
      simp

/-- C1 witness: on a concrete two-day January group with one missing value
(fraction 1/2, threshold 1/5) the flag is governed by the strict comparison. -/
theorem incomplete_flag_iff_rounded_fraction_exceeds_witness :
    ((monthlyRowFor wDf (1/5) (wMeta, 2020, 1)).incompleteMonth = true ↔
      (1/5 : ℚ) < (monthlyRowFor wDf (1/5) (wMeta, 2020, 1)).pctMissing) ∧
    ((monthlyRowFor wDf (1/5) (wMeta, 2020, 1)).pctMissing = 1/5 →
      (monthlyRowFor wDf (1/5) (wMeta, 2020, 1)).incompleteMonth = false) :=
  (incomplete_flag_iff_rounded_fraction_exceeds wDf (1/5) 10).1
    (monthlyRowFor wDf (1/5) (wMeta, 2020, 1))
    (mem_summarize_monthly.mpr ⟨(wMeta, 2020, 1), by decide, rfl⟩)

/-- C3: in the annual summary, `InsufficientMonths` is true iff the count of
distinct observed months is strictly below `min_months` (equality is not
flagged), and `Flagged` is true iff `IncompleteYear` or `InsufficientMonths`
holds. -/
theorem insufficient_months_flag_iff (df : List DailyRecord) (thr : ℚ)
    (mm : ℕ) :
    ∀ r ∈ summarize_annual df thr mm,
      (r.insufficientMonths = true ↔ r.monthsObserved < mm) ∧
      (r.monthsObserved = mm → r.insufficientMonths = false) ∧
      (r.flagged = true ↔ (r.incompleteYear = true ∨
        r.insufficientMonths = true)) := by
  intro r hr
  obtain ⟨k, _, rfl⟩ := mem_summarize_annual.mp hr
  refine ⟨?_, ?_, ?_⟩
  · rw [annualRowFor_insufficientMonths]
    exact decide_eq_true_iff
  · intro h
    rw [annualRowFor_insufficientMonths, h]
    simp
  · rw [annualRowFor_flagged]
    exact iff_of_eq (Bool.or_eq_true _ _)

/-- C3 witness: a concrete year with 2 observed months and minimum 10 is
flagged insufficient, and the combined flag follows the disjunction. -/
theorem insufficient_months_flag_iff_witness :
    ((annualRowFor wDf (1/5) 10 (wMeta, 2020)).insufficientMonths = true ↔
      (annualRowFor wDf (1/5) 10 (wMeta, 2020)).monthsObserved < 10) ∧
    ((annualRowFor wDf (1/5) 10 (wMeta, 2020)).monthsObserved = 10 →
      (annualRowFor wDf (1/5) 10 (wMeta, 2020)).insufficientMonths = false) ∧
    ((annualRowFor wDf (1/5) 10 (wMeta, 2020)).flagged = true ↔
      ((annualRowFor wDf (1/5) 10 (wMeta, 2020)).incompleteYear = true ∨
        (annualRowFor wDf (1/5) 10 (wMeta, 2020)).insufficientMonths = true)) :=
  insufficient_months_flag_iff wDf (1/5) 10
    (annualRowFor wDf (1/5) 10 (wMeta, 2020))
    (mem_summarize_annual.mpr ⟨(wMeta, 2020), by decide, rfl⟩)

/-- C10: `summarize_monthly` mutates the caller's dataframe by attaching a
`YearMonth` column, and `summarize_annual` by attaching `Year` and `Month`
columns; all pre-existing columns and all rows are left unchanged. -/
theorem summarize_mutates_input_adding_period_columns
    (df : List DailyRecord) :
    ((addYearMonth df).map Prod.fst = df ∧
      ∀ p ∈ addYearMonth df, p.2 = toYearMonth p.1.date) ∧
    ((addYearAndMonth df).map Prod.fst = df ∧
      ∀ p ∈ addYearAndMonth df, p.2 = (p.1.date.year, p.1.date.month)) := by
  refine ⟨⟨?_, ?_⟩, ⟨?_, ?_⟩⟩
  · rw [addYearMonth, List.map_map]
    exact List.map_id _
  · intro p hp
    obtain ⟨r, _, rfl⟩ := List.mem_map.mp hp
    rfl
  · rw [addYearAndMonth, List.map_map]
    exact List.map_id _
  · intro p hp
    obtain ⟨r, _, rfl⟩ := List.mem_map.mp hp
    rfl

/-- C10 witness: on a concrete record the attached `YearMonth` cell is the
period of its date. -/
theorem summarize_mutates_input_adding_period_columns_witness :
    ((wRec1, ((2020 : ℕ), (1 : ℕ)))).2 = toYearMonth wRec1.date :=
  (summarize_mutates_input_adding_period_columns [wRec1]).1.2
    (wRec1, (2020, 1)) (by decide)

/-- C9: both summary tables are sorted by station then period, and carry
exactly one row per (station identity, period) pair: the list of (metadata,
period) keys of the output has no duplicates. -/
theorem summaries_sorted_and_one_row_per_station_period
    (df : List DailyRecord) (thr : ℚ) (mm : ℕ) :
    (summarize_monthly df thr).Sorted monthlyLe ∧
    ((summarize_monthly df thr).map (fun r => (r.meta, r.year, r.month))).Nodup ∧
    (summarize_annual df thr mm).Sorted annualLe ∧
    ((summarize_annual df thr mm).map (fun r => (r.meta, r.year))).Nodup := by
  refine ⟨List.sorted_insertionSort _ _, ?_, List.sorted_insertionSort _ _, ?_⟩
  · have e : summarize_monthly df thr =
        (((addYearMonth df).map monthKeyOf).dedup.map
          (monthlyRowFor df thr)).insertionSort monthlyLe := rfl
    rw [e]
    have hperm := (List.perm_insertionSort monthlyLe
      (((addYearMonth df).map monthKeyOf).dedup.map (monthlyRowFor df thr))).map
      (fun r : MonthlyRow => (r.meta, r.year, r.month))
    refine hperm.nodup_iff.mpr ?_
    rw [List.map_map]
    have e2 : ((addYearMonth df).map monthKeyOf).dedup.map
        ((fun r : MonthlyRow => (r.meta, r.year, r.month)) ∘ monthlyRowFor df thr) =
        ((addYearMonth df).map monthKeyOf).dedup.map id := by
      apply List.map_congr_left
      intro k _
      obtain ⟨a, b, c⟩ := k
      rfl
    rw [e2, List.map_id]
    exact List.nodup_dedup _
  · have e : summarize_annual df thr mm =
        (((addYearAndMonth df).map yearKeyOf).dedup.map
          (annualRowFor df thr mm)).insertionSort annualLe := rfl
    rw [e]
    have hperm := (List.perm_insertionSort annualLe
      (((addYearAndMonth df).map yearKeyOf).dedup.map (annualRowFor df thr mm))).map
      (fun r : AnnualRow => (r.meta, r.year))
    refine hperm.nodup_iff.mpr ?_
    rw [List.map_map]
    have e2 : ((addYearAndMonth df).map yearKeyOf).dedup.map
        ((fun r : AnnualRow => (r.meta, r.year)) ∘ annualRowFor df thr mm) =
        ((addYearAndMonth df).map yearKeyOf).dedup.map id := by
      apply List.map_congr_left
      intro k _
      obtain ⟨a, b⟩ := k
      rfl
    rw [e2, List.map_id]
    exact List.nodup_dedup _

/-- C2: every station/month group of the validated records yields a summary
row, and each monthly summary row's `MonthlyRainfall` is the sum of the
non-missing rain values of its group (missing values contribute zero),
`DaysCount` is the group's row count, `MissingCount` the number of rows with
missing rain, and `PctMissing` is `MissingCount / DaysCount` rounded to 3
decimals. -/
theorem monthly_summary_aggregates_group (df : List DailyRecord) (thr : ℚ) :
    (∀ x ∈ df, ∃ r ∈ summarize_monthly df thr,
      r.meta = x.meta ∧ r.year = x.date.year ∧ r.month = x.date.month) ∧
    (∀ r ∈ summarize_monthly df thr,
      r.monthlyRainfall =
        ((monthGroup df r.meta r.year r.month).filterMap
          (fun x => x.rain)).sum ∧
      r.daysCount = (monthGroup df r.meta r.year r.month).length ∧
      r.missingCount = ((monthGroup df r.meta r.year r.month).filter
        (fun x => x.rain = none)).length ∧
      r.pctMissing = round3 ((r.missingCount : ℚ) / (r.daysCount : ℚ))) := by
  constructor
  · intro x hx
    refine ⟨monthlyRowFor df thr (x.meta, x.date.year, x.date.month),
      mem_summarize_monthly.mpr
        ⟨(x.meta, x.date.year, x.date.month), ?_, rfl⟩, rfl, rfl, rfl⟩
    exact List.mem_dedup.mpr
      (List.mem_map_of_mem monthKeyOf
        (List.mem_map_of_mem (fun r : DailyRecord => (r, toYearMonth r.date)) hx))
  · intro r hr
    obtain ⟨⟨m, y, mo⟩, _, rfl⟩ := mem_summarize_monthly.mp hr
    obtain ⟨e1, e2, e3, e4⟩ := monthlyRowFor_fields df thr (m, y, mo)
    rw [e1, e2, e3]
    refine ⟨?_, ?_, ?_, e4⟩
    · show ((((addYearMonth df).filter
          (fun p => monthKeyOf p = (m, y, mo))).map
            (fun p => p.1.rain.getD 0)).sum) = _
      rw [monthly_group_eq, List.map_map]
      have h1 := sum_getD_eq_sum_filterMap
        ((monthGroup df m y mo).map (fun x => x.rain))
      rw [List.map_map, List.filterMap_map] at h1
      exact h1
    · show (((addYearMonth df).filter
          (fun p => monthKeyOf p = (m, y, mo))).length) = _
      rw [monthly_group_eq, List.length_map]
    · show ((((addYearMonth df).filter
          (fun p => monthKeyOf p = (m, y, mo))).filter
            (fun p => p.1.rain = none)).length) = _
      rw [monthly_group_eq, List.filter_map, List.length_map]
      rfl

/-- C2 witness: on the concrete January 2020 group (rain 5 and one missing
value) the row carries sum 5, 2 days, 1 missing, and fraction 1/2. -/
theorem monthly_summary_aggregates_group_witness :
    (monthlyRowFor wDf (1/5) (wMeta, 2020, 1)).monthlyRainfall =
      ((monthGroup wDf (monthlyRowFor wDf (1/5) (wMeta, 2020, 1)).meta
        (monthlyRowFor wDf (1/5) (wMeta, 2020, 1)).year
        (monthlyRowFor wDf (1/5) (wMeta, 2020, 1)).month).filterMap
          (fun x => x.rain)).sum ∧
    (monthlyRowFor wDf (1/5) (wMeta, 2020, 1)).daysCount =
      (monthGroup wDf (monthlyRowFor wDf (1/5) (wMeta, 2020, 1)).meta
        (monthlyRowFor wDf (1/5) (wMeta, 2020, 1)).year
        (monthlyRowFor wDf (1/5) (wMeta, 2020, 1)).month).length ∧
    (monthlyRowFor wDf (1/5) (wMeta, 2020, 1)).missingCount =
      ((monthGroup wDf (monthlyRowFor wDf (1/5) (wMeta, 2020, 1)).meta
        (monthlyRowFor wDf (1/5) (wMeta, 2020, 1)).year
        (monthlyRowFor wDf (1/5) (wMeta, 2020, 1)).month).filter
          (fun x => x.rain = none)).length ∧
    (monthlyRowFor wDf (1/5) (wMeta, 2020, 1)).pctMissing =
      round3 (((monthlyRowFor wDf (1/5) (wMeta, 2020, 1)).missingCount : ℚ) /
        ((monthlyRowFor wDf (1/5) (wMeta, 2020, 1)).daysCount : ℚ)) :=
  (monthly_summary_aggregates_group wDf (1/5)).2
    (monthlyRowFor wDf (1/5) (wMeta, 2020, 1))
    (mem_summarize_monthly.mpr ⟨(wMeta, 2020, 1), by decide, rfl⟩)


lemma sum_map_filter_split {α : Type} (l : List α) (p : α → Bool)
    (v : α → ℚ) :
    ((l.filter p).map v).sum + ((l.filter (fun a => !p a)).map v).sum =
      (l.map v).sum := by
  induction l with
  | nil => simp
  | cons a t ih =>
    by_cases h : p a = true
    · simp only [List.filter_cons, h, Bool.not_true, Bool.false_eq_true,
        if_true, if_false, List.map_cons, List.sum_cons]
      rw [add_assoc, ih]
    · rw [Bool.not_eq_true] at h
      simp only [List.filter_cons, h, Bool.not_false, Bool.false_eq_true,
        if_true, if_false, List.map_cons, List.sum_cons]
      rw [add_left_comm, ih]

lemma sum_over_nodup_keys {α κ : Type} [DecidableEq κ] (v : α → ℚ)
    (key : α → κ) :
    ∀ (keys : List κ) (l : List α), keys.Nodup → (∀ a ∈ l, key a ∈ keys) →
      (keys.map (fun k => ((l.filter (fun a => key a = k)).map v).sum)).sum =
        (l.map v).sum := by
  intro keys
  induction keys with
  | nil =>
    intro l _ hcov
    have : l = [] := List.eq_nil_iff_forall_not_mem.mpr
      (fun a ha => by simpa using hcov a ha)
    simp [this]
  | cons k ks ih =>
    intro l hnd hcov
    have hk : k ∉ ks := (List.nodup_cons.mp hnd).1
    have hnd' : ks.Nodup := (List.nodup_cons.mp hnd).2
    set l' := l.filter (fun a => !(decide (key a = k))) with hl'
    have htail : ∀ k' ∈ ks,
        l.filter (fun a => key a = k') = l'.filter (fun a => key a = k') := by
      intro k' hk'
      rw [hl', List.filter_filter]
      apply List.filter_congr
      intro a _
      by_cases h : key a = k'
      · have hne : ¬ k' = k := fun e => hk (e ▸ hk')
        simp [h, hne]
      · simp [h]
    have hcov' : ∀ a ∈ l', key a ∈ ks := by
      intro a ha
      have hmem := List.mem_filter.mp ha
      have := hcov a hmem.1
      rcases List.mem_cons.mp this with e | e
      · exfalso
        simp [e] at hmem
      · exact e
    have hmaps : ks.map
        (fun k' => ((l.filter (fun a => key a = k')).map v).sum) =
        ks.map (fun k' => ((l'.filter (fun a => key a = k')).map v).sum) := by
      apply List.map_congr_left
      intro k' hk'
      rw [htail k' hk']
    rw [List.map_cons, List.sum_cons, hmaps, ih l' hnd' hcov']
    exact sum_map_filter_split l (fun a => decide (key a = k)) v

lemma pivot_nested_filter (monthly : List MonthlyRow) (m : StationMeta)
    (ym : ℕ × ℕ) :
    monthly.filter (fun r => r.meta = m ∧ (r.year, r.month) = ym) =
      (monthly.filter (fun r => r.meta = m)).filter
        (fun r => (r.year, r.month) = ym) := by
  rw [List.filter_filter]
  apply List.filter_congr
  intro a _
  simp [Bool.decide_and, Bool.and_comm]

lemma pivotCell_getD (monthly : List MonthlyRow) (m : StationMeta)
    (ym : ℕ × ℕ) :
    (pivotCell monthly m ym).getD 0 =
      (((monthly.filter (fun r => r.meta = m)).filter
        (fun r => (r.year, r.month) = ym)).map
          (fun r => r.monthlyRainfall)).sum := by
  rw [← pivot_nested_filter]
  unfold pivotCell
  by_cases h : (monthly.filter
      (fun r => r.meta = m ∧ (r.year, r.month) = ym)).isEmpty = true
  · rw [if_pos h]
    rw [List.isEmpty_iff] at h
    rw [h]
    rfl
  · rw [if_neg h]
    rfl

/-- C4: for every monthly summary table and every station, the sum of the
station's wide-pivot cells across the period columns (metadata columns
excluded, empty cells contributing nothing) equals the sum of that station's
`MonthlyRainfall` values in the long-format table. -/
theorem wide_pivot_row_sum_eq_long_sum (monthly : List MonthlyRow)
    (m : StationMeta) :
    wideRowSum monthly m =
      ((monthly.filter (fun r => r.meta = m)).map
        (fun r => r.monthlyRainfall)).sum := by
  unfold wideRowSum wideRow widePeriods
  rw [List.map_map]
  have hmap : ((monthly.map (fun r => (r.year, r.month))).dedup).map
      ((fun c => c.getD 0) ∘ pivotCell monthly m) =
      ((monthly.map (fun r => (r.year, r.month))).dedup).map
        (fun ym => (((monthly.filter (fun r => r.meta = m)).filter
          (fun a => (a.year, a.month) = ym)).map
            (fun r => r.monthlyRainfall)).sum) := by
    apply List.map_congr_left
    intro ym _
    exact pivotCell_getD monthly m ym
  rw [hmap]
  exact sum_over_nodup_keys (fun r => r.monthlyRainfall)
    (fun r => (r.year, r.month))
    ((monthly.map (fun r => (r.year, r.month))).dedup)
    (monthly.filter (fun r => r.meta = m))
    (List.nodup_dedup _)
    (fun a ha => List.mem_dedup.mpr
      (List.mem_map_of_mem (fun r : MonthlyRow => (r.year, r.month))
        (List.mem_of_mem_filter ha)))

end Station

namespace Station

lemma toOption_eq_none_iff {α β : Type} (x : Except α β) :
    x.toOption = none ↔ ∃ e, x = .error e := by
  cases x <;> simp [Except.toOption]

lemma load_folder_nonempty_eq (pd : String → Option Date)
    (pr : String → Option ℚ) (files : List CsvFile) (h : files ≠ []) :
    load_folder pd pr files =
      (if files.filterMap
          (fun f => (read_and_validate_csv pd pr f).toOption) = [] then
        .error .noValidCsv
      else
        .ok ((files.filterMap
          (fun f => (read_and_validate_csv pd pr f).toOption)).flatten,
          files.filterMap (fun f =>
            match read_and_validate_csv pd pr f with
            | .error e => some (f.name, e)
            | .ok _ => none))) := by
  unfold load_folder
  rw [if_neg h]
  simp only [List.filterMap_map]
  rfl

/-- C5: loading a folder fails with `FileNotFoundError` iff the folder has no
CSV files; it fails with `RuntimeError` iff there are files but none
validates; as soon as one file validates it succeeds, returning the
concatenation of the frames of the validating files while listing each
skipped file with its reported reason; and a file missing required columns is
exactly one that errors with the list of missing columns. -/
theorem load_folder_skips_invalid_and_fails_without_valid
    (pd : String → Option Date) (pr : String → Option ℚ)
    (files : List CsvFile) :
    (load_folder pd pr files = .error .noCsvFiles ↔ files = []) ∧
    (load_folder pd pr files = .error .noValidCsv ↔
      (files ≠ [] ∧ ∀ f ∈ files, ∃ e,
        read_and_validate_csv pd pr f = .error e)) ∧
    ((∃ f ∈ files, ∃ out, read_and_validate_csv pd pr f = .ok out) →
      load_folder pd pr files =
        .ok ((files.filterMap
          (fun f => (read_and_validate_csv pd pr f).toOption)).flatten,
          files.filterMap (fun f =>
            match read_and_validate_csv pd pr f with
            | .error e => some (f.name, e)
            | .ok _ => none))) ∧
    (∀ f : CsvFile, REQUIRED_COLS.filter (fun c => ¬ c ∈ f.cols) ≠ [] →
      read_and_validate_csv pd pr f =
        .error (.missingColumns
          (REQUIRED_COLS.filter (fun c => ¬ c ∈ f.cols)))) := by
  by_cases hfe : files = []
  · subst hfe
    refine ⟨?_, ?_, ?_, ?_⟩
    · simp [load_folder]
    · constructor
      · intro h
        simp [load_folder] at h
      · rintro ⟨hne, _⟩
        exact absurd rfl hne
    · rintro ⟨f, hf, _⟩
      exact absurd hf (List.not_mem_nil f)
    · intro f h
      unfold read_and_validate_csv
      rw [if_pos h]
  · have key := load_folder_nonempty_eq pd pr files hfe
    have hnone : (files.filterMap
        (fun f => (read_and_validate_csv pd pr f).toOption) = []) ↔
        ∀ f ∈ files, ∃ e, read_and_validate_csv pd pr f = .error e := by
      rw [List.filterMap_eq_nil_iff]
      constructor
      · intro h f hf
        exact (toOption_eq_none_iff _).mp (h f hf)
      · intro h f hf
        exact (toOption_eq_none_iff _).mpr (h f hf)
    refine ⟨?_, ?_, ?_, ?_⟩
    · rw [key]
      constructor
      · intro h
        by_cases he : files.filterMap
            (fun f => (read_and_validate_csv pd pr f).toOption) = []
        · rw [if_pos he] at h
          exact absurd (Except.error.inj h) (by intro h2; cases h2)
        · rw [if_neg he] at h
          cases h
      · intro h
        exact absurd h hfe
    · rw [key]
      constructor
      · intro h
        by_cases he : files.filterMap
            (fun f => (read_and_validate_csv pd pr f).toOption) = []
        · exact ⟨hfe, hnone.mp he⟩
        · rw [if_neg he] at h
          cases h
      · rintro ⟨_, hall⟩
        rw [if_pos (hnone.mpr hall)]
    · rintro ⟨f, hf, out, hok⟩
      rw [key]
      have hne : files.filterMap
          (fun g => (read_and_validate_csv pd pr g).toOption) ≠ [] := by
        intro h
        have := List.filterMap_eq_nil_iff.mp h f hf
        simp [hok, Except.toOption] at this
      rw [if_neg hne]
    · intro f h
      unfold read_and_validate_csv
      rw [if_pos h]

/-- C5 witness: a folder with one invalid and one valid file loads
successfully, skipping the invalid file and keeping the valid one. -/
theorem load_folder_skips_invalid_witness :
    load_folder wParseDate wParseRain [wBadFile, wGoodFile] =
      .ok (([wBadFile, wGoodFile].filterMap
        (fun f => (read_and_validate_csv wParseDate wParseRain f).toOption)).flatten,
        [wBadFile, wGoodFile].filterMap (fun f =>
          match read_and_validate_csv wParseDate wParseRain f with
          | .error e => some (f.name, e)
          | .ok _ => none)) :=
  (load_folder_skips_invalid_and_fails_without_valid wParseDate wParseRain
    [wBadFile, wGoodFile]).2.2.1
    ⟨wGoodFile, by decide, [⟨wMeta, ⟨2020, 1, 1⟩, some 5⟩], by rfl⟩

lemma length_filterMap_eq_length_filter {α β : Type} (l : List α)
    (f : α → Option β) :
    (l.filterMap f).length = (l.filter (fun a => (f a).isSome)).length := by
  induction l with
  | nil => rfl
  | cons a t ih =>
    rw [List.filterMap_cons, List.filter_cons]
    cases h : f a <;> simp [h, ih]

/-- C6: on a CSV that passes column validation, a row is kept exactly when its
date string parses (unparseable dates are dropped, so the output length is the
count of parseable-date rows), and every kept row stores the rain parse
result, which is the missing marker `none` when the rain value fails to
parse. -/
theorem validated_rows_drop_bad_dates_keep_missing_rain
    (pd : String → Option Date) (pr : String → Option ℚ) (file : CsvFile)
    (h : REQUIRED_COLS.filter (fun c => ¬ c ∈ file.cols) = []) :
    read_and_validate_csv pd pr file =
      .ok (file.rows.filterMap (coerceRow pd pr)) ∧
    (file.rows.filterMap (coerceRow pd pr)).length =
      (file.rows.filter (fun r => (pd r.dateStr).isSome)).length ∧
    (∀ r ∈ file.rows, ∀ d, pd r.dateStr = some d →
      ({ meta := r.meta, date := d, rain := pr r.rainStr } : DailyRecord) ∈
        file.rows.filterMap (coerceRow pd pr)) ∧
    (∀ rec ∈ file.rows.filterMap (coerceRow pd pr),
      ∃ r ∈ file.rows, pd r.dateStr = some rec.date ∧
        rec.meta = r.meta ∧ rec.rain = pr r.rainStr) := by
  refine ⟨?_, ?_, ?_, ?_⟩
  · unfold read_and_validate_csv
    rw [if_neg (fun hne => hne h)]
    rfl
  · rw [length_filterMap_eq_length_filter file.rows (coerceRow pd pr)]
    congr 1
    apply List.filter_congr
    intro a _
    simp [coerceRow]
  · intro r hr d hd
    exact List.mem_filterMap.mpr ⟨r, hr, by unfold coerceRow; rw [hd]; rfl⟩
  · intro rec hrec
    obtain ⟨r, hr, heq⟩ := List.mem_filterMap.mp hrec
    unfold coerceRow at heq
    obtain ⟨d, hd, hgd⟩ := Option.map_eq_some'.mp heq
    refine ⟨r, hr, ?_, ?_, ?_⟩
    · rw [← hgd]
      exact hd
    · rw [← hgd]
    · rw [← hgd]

/-- C6 witness: a file with one good row, one bad-date row and one bad-rain
row validates to exactly the coerced rows (the bad-date row dropped, the
bad-rain row kept with the missing marker). -/
theorem validated_rows_drop_bad_dates_keep_missing_rain_witness :
    read_and_validate_csv wParseDate wParseRain wMixedFile =
      .ok (wMixedFile.rows.filterMap (coerceRow wParseDate wParseRain)) :=
  (validated_rows_drop_bad_dates_keep_missing_rain wParseDate wParseRain
    wMixedFile (by decide)).1

/-- C7 counterexample: when both the target path and the timestamped fallback
path are locked, `safe_save_csv` propagates the error — the save operation can
abort the run on a write failure, contradicting the claim as stated. -/
theorem safe_save_can_abort_when_fallback_also_locked :
    safe_save_csv (fun _ => true) "20251012-000000" wDf "out.csv" =
      .error () := rfl

/-- C7 (amended): provided the timestamp-suffixed fallback path is writable,
the save never aborts: on success it writes the data to the target path and
returns it, and when the target path cannot be written it writes the
identical data to the fallback filename and returns that path. -/
theorem safe_save_fallback_behaviour {α : Type} (locked : String → Bool)
    (timestamp : String) (df : α) (output_file : String)
    (hfb : locked (fallbackName output_file timestamp) = false) :
    (locked output_file = false →
      safe_save_csv locked timestamp df output_file =
        .ok (output_file, df)) ∧
    (locked output_file = true →
      safe_save_csv locked timestamp df output_file =
        .ok (fallbackName output_file timestamp, df)) := by
  constructor <;> intro h <;> unfold safe_save_csv <;> simp [h, hfb]

/-- C7 witness: with `out.csv` locked and its fallback free, the table is
saved under the timestamped name. -/
theorem safe_save_fallback_behaviour_witness :
    safe_save_csv (fun p => decide (p = "out.csv")) "20251012-000000" wDf
      "out.csv" = .ok (fallbackName "out.csv" "20251012-000000", wDf) :=
  (safe_save_fallback_behaviour (fun p => decide (p = "out.csv"))
    "20251012-000000" wDf "out.csv" (by decide)).2 (by decide)

end Station

namespace Landsat

lemma filterMap_body_eq {σ : Type} (stat : List (ℚ × ℚ) → σ)
    (season : String) (base : List MergedRow) (lag : ℤ)
    (h : ¬ ((lagPairs lag base).map
      (fun p => (p.1.ndvi, p.2.rain))).length < 3) :
    (let pairs := (lagPairs lag base).map (fun p => (p.1.ndvi, p.2.rain))
     if pairs.length < 3 then none
     else some { season := season, lag_years := lag, n := pairs.length,
                 stats := stat pairs } : Option (LagRow σ)) =
      some (mkLagRow stat season base lag) := by
  rw [if_neg h]
  unfold mkLagRow
  rw [List.length_map]

/-- C8: a result row for a lag exists iff the lag is requested and at least 3
paired years survive the shift (lags with fewer pairs are silently omitted);
each emitted row carries the pair count as its sample size and the statistics
computed on the (NDVI, lagged rain) pairs; rows are unique per lag; and for a
positive lag every pair matches an NDVI value with rainfall of a strictly
later year (the merged series being strictly increasing in year). -/
theorem lagged_correlations_characterisation {σ : Type}
    (stat : List (ℚ × ℚ) → σ) (season : String) (lags : List ℤ)
    (base : List MergedRow)
    (hsort : base.Chain' (fun a b => a.year < b.year)) :
    (∀ row : LagRow σ, row ∈ lagged_correlations stat season lags base ↔
      (row.lag_years ∈ lags ∧ 3 ≤ (lagPairs row.lag_years base).length ∧
        row = mkLagRow stat season base row.lag_years)) ∧
    (∀ r1 ∈ lagged_correlations stat season lags base,
      ∀ r2 ∈ lagged_correlations stat season lags base,
        r1.lag_years = r2.lag_years → r1 = r2) ∧
    (∀ lag : ℤ, 0 < lag → ∀ p ∈ lagPairs lag base, p.1.year < p.2.year) := by
  have hmem : ∀ row : LagRow σ,
      row ∈ lagged_correlations stat season lags base ↔
      (row.lag_years ∈ lags ∧ 3 ≤ (lagPairs row.lag_years base).length ∧
        row = mkLagRow stat season base row.lag_years) := by
    intro row
    unfold lagged_correlations
    rw [List.mem_insertionSort, List.mem_filterMap]
    constructor
    · rintro ⟨lag, hlag, hf⟩
      by_cases hlen : ((lagPairs lag base).map
          (fun p => (p.1.ndvi, p.2.rain))).length < 3
      · rw [if_pos hlen] at hf
        cases hf
      · rw [filterMap_body_eq stat season base lag hlen] at hf
        have hrow : row = mkLagRow stat season base lag :=
          (Option.some.inj hf).symm
        have hrl : row.lag_years = lag := by rw [hrow]; rfl
        rw [List.length_map] at hlen
        refine ⟨?_, ?_, ?_⟩
        · rw [hrl]
          exact hlag
        · rw [hrl]
          omega
        · rw [hrl, hrow]
    · rintro ⟨hlag, hlen, heq⟩
      refine ⟨row.lag_years, hlag, ?_⟩
      rw [filterMap_body_eq stat season base row.lag_years
        (by rw [List.length_map]; omega), ← heq]
  refine ⟨hmem, ?_, ?_⟩
  · intro r1 h1 r2 h2 hl
    obtain ⟨_, _, e1⟩ := (hmem r1).mp h1
    obtain ⟨_, _, e2⟩ := (hmem r2).mp h2
    rw [e1, e2, hl]
  · intro lag hpos p hp
    unfold lagPairs at hp
    rw [if_pos (le_of_lt hpos)] at hp
    obtain ⟨i, hi⟩ := List.mem_iff_getElem?.mp hp
    obtain ⟨h1, h2⟩ := List.getElem?_zip_eq_some.mp hi
    rw [List.getElem?_drop] at h2
    obtain ⟨hlt1, he1⟩ := List.getElem?_eq_some.mp h1
    obtain ⟨hlt2, he2⟩ := List.getElem?_eq_some.mp h2
    haveI : IsTrans MergedRow (fun a b => a.year < b.year) :=
      ⟨fun _ _ _ hab hbc => lt_trans hab hbc⟩
    have hpw := List.chain'_iff_pairwise.mp hsort
    have hrel := List.pairwise_iff_getElem.mp hpw i (lag.toNat + i)
      hlt1 hlt2 (by omega)
    rw [he1, he2] at hrel
    exact hrel

/-- C8 witness: on the concrete four-year series, requesting lag 1 yields the
canonical row (3 pairs, each NDVI value matched with next year's rain). -/
theorem lagged_correlations_characterisation_witness :
    mkLagRow (fun l => l.length) "SUMMER" wBase 1 ∈
      lagged_correlations (fun l => l.length) "SUMMER" [1] wBase ↔
      ((mkLagRow (fun l => l.length) "SUMMER" wBase 1).lag_years ∈
          [(1 : ℤ)] ∧
        3 ≤ (lagPairs (mkLagRow (fun l => l.length) "SUMMER" wBase 1).lag_years
          wBase).length ∧
        mkLagRow (fun l => l.length) "SUMMER" wBase 1 =
          mkLagRow (fun l => l.length) "SUMMER" wBase
            (mkLagRow (fun l => l.length) "SUMMER" wBase 1).lag_years) :=
  (lagged_correlations_characterisation (fun l => l.length) "SUMMER"
    [1] wBase (by simp [wBase, List.chain'_cons])).1
    (mkLagRow (fun l => l.length) "SUMMER" wBase 1)

end Landsat
